import Mathlib

/-!
MemeGenius: a shallow embedding of the client state model

This file embeds the state model and the event handlers of `src/App.tsx`
(together with the types of `src/types.ts`) as pure Lean functions over an
explicit application-state record, and proves or refutes the specification
claims about them.

Modelling conventions:
* React `useState` slots become fields of `AppState`; each handler becomes a
  pure function `AppState → ... → AppState` describing the net state after the
  handler has run to completion.
* The external adapters (`fileToGenerativePart`, `fetch`, the three Gemini
  calls) are opaque collaborators; each handler takes the outcome of its
  single adapter interaction as an `Except Unit _` argument (`.ok` = the
  awaited promise resolved, `.error` = it rejected and control reached the
  `catch` block).
* `Date.now()` is modelled by an explicit `now : Nat` argument to
  `addTextOverlay`; the produced overlay id is its decimal string
  (`Nat.repr`), exactly as `Date.now().toString()`.
* JavaScript numbers used for overlay coordinates are modelled as `Int`: the
  handlers never do arithmetic on them, they only store and compare, and the
  claims concern the integer range `[0, 100]`.
-/

namespace MemeGenius

/-- Embedding of `LoadingState` from `src/types.ts`: the single-flight busy indicator. -/
inductive LoadingState where
  | IDLE
  | GENERATING_CAPTIONS
  | EDITING_IMAGE
  | ANALYZING
deriving DecidableEq, Repr

/-- Caption category from `src/types.ts` (`GeneratedCaption.category`). -/
inductive Category where
  | Funny
  | Sarcastic
  | Wholesome
  | Dark
  | Viral
deriving DecidableEq, Repr

/-- Embedding of `TextOverlay` from `src/types.ts`. -/
structure TextOverlay where
  id : String
  text : String
  x : Int
  y : Int
  fontSize : Int
  color : String
  isUppercase : Bool
deriving DecidableEq, Repr

/-- Embedding of `GeneratedCaption` from `src/types.ts`. -/
structure GeneratedCaption where
  text : String
  category : Category
deriving DecidableEq, Repr

/-- The slice of a DOM `File` object that `handleFileChange` reads: its MIME
`type` field (the bytes go to the opaque reader). -/
structure FileInput where
  type : String
deriving DecidableEq, Repr

/-- The observable outcome of a resolved `fetch` in `handleSelectTemplate`:
the HTTP success flag (`Response.ok`, which the source never inspects), the
`blob.type` MIME string, and the data URL the `FileReader` produces from the
body. -/
structure FetchResponse where
  ok : Bool
  blobType : String
  dataUrl : String
deriving DecidableEq, Repr

/-- The `useState` slots of the `App` component in `src/App.tsx`. -/
structure AppState where
  currentImage : Option String
  currentMimeType : String
  texts : List TextOverlay
  captions : List GeneratedCaption
  loadingState : LoadingState
  analysisText : String
  showAnalysis : Bool
  editPrompt : String
  errorMsg : Option String
deriving DecidableEq, Repr

/-- The initial state of the component (`useState` initial values). -/
def initialState : AppState where
  currentImage := none
  currentMimeType := "image/jpeg"
  texts := []
  captions := []
  loadingState := .IDLE
  analysisText := ""
  showAnalysis := false
  editPrompt := ""
  errorMsg := none

/-- Embedding of `handleFileChange` (src/App.tsx, lines 41–57). `file` is
`e.target.files?.[0]`; `readResult` is the awaited outcome of
`fileToGenerativePart(file)` (the base64 payload on success). -/
def handleFileChange (s : AppState) (file : Option FileInput)
    (readResult : Except Unit String) : AppState :=
  match file with
  | none => s
  | some f =>
    match readResult with
    | .ok base64 =>
      { s with
        currentImage := some ("data:" ++ f.type ++ ";base64," ++ base64)
        currentMimeType := f.type
        captions := []
        texts := []
        errorMsg := none }
    | .error _ => { s with errorMsg := some "Failed to load image" }

/-- Embedding of `handleSelectTemplate` (src/App.tsx, lines 60–77). `fetchResult` is the
outcome of `await fetch(url)` followed by `await response.blob()`: `.error`
when either promise rejects (network failure), `.ok r` when they resolve —
note `r.ok` (the HTTP status flag) is carried but, as in the source, never
consulted. On `.ok`, the `FileReader.onloadend` callback stores the data URL
and the blob MIME type, and the handler clears captions, overlays and the
error slot; the net settled state is modelled. -/
def handleSelectTemplate (s : AppState)
    (fetchResult : Except Unit FetchResponse) : AppState :=
  match fetchResult with
  | .ok r =>
    { s with
      currentImage := some r.dataUrl
      currentMimeType := r.blobType
      captions := []
      texts := []
      errorMsg := none }
  | .error _ => { s with errorMsg := some "Failed to load template" }

/-- Embedding of `handleMagicCaption` (src/App.tsx, lines 80–94). `adapterResult` is the
awaited outcome of `generateMagicCaptions`. The guard `if (!currentImage)
return` leaves the state untouched; otherwise the busy state is set, the
error slot cleared, the captions replaced on success or the error slot set on
failure, and the `finally` block resets the state to `IDLE`. -/
def handleMagicCaption (s : AppState)
    (adapterResult : Except Unit (List GeneratedCaption)) : AppState :=
  match s.currentImage with
  | none => s
  | some _ =>
    let s1 := { s with loadingState := .GENERATING_CAPTIONS, errorMsg := none }
    let s2 :=
      match adapterResult with
      | .ok result => { s1 with captions := result }
      | .error _ =>
        { s1 with errorMsg := some "Failed to generate captions. Try again." }
    { s2 with loadingState := .IDLE }

/-- Strip leading whitespace characters from a character list. -/
def dropWhitespace : List Char → List Char
  | [] => []
  | c :: rest => if c.isWhitespace then dropWhitespace rest else c :: rest

/-- Model of JavaScript `String.prototype.trim`: strips whitespace from both
ends of the string. -/
def jsTrim (s : String) : String :=
  ⟨(dropWhitespace (dropWhitespace s.data).reverse).reverse⟩

/-- Embedding of `handleEditImage` (src/App.tsx, lines 97–112). The guard
`if (!currentImage || !editPrompt.trim()) return` rejects a missing image or
a whitespace-only prompt (`!str` is true exactly for the empty string). On
success the returned image replaces `currentImage` and the prompt is
cleared; on failure only the error slot is set; the `finally` block resets
the state to `IDLE`. -/
def handleEditImage (s : AppState)
    (adapterResult : Except Unit String) : AppState :=
  if s.currentImage = none ∨ jsTrim s.editPrompt = "" then s
  else
    let s1 := { s with loadingState := .EDITING_IMAGE, errorMsg := none }
    let s2 :=
      match adapterResult with
      | .ok newImageBase64 =>
        { s1 with currentImage := some newImageBase64, editPrompt := "" }
      | .error _ =>
        { s1 with errorMsg := some "Failed to edit image. The model might be busy." }
    { s2 with loadingState := .IDLE }

/-- Embedding of `handleAnalyze` (src/App.tsx, lines 115–130). -/
def handleAnalyze (s : AppState)
    (adapterResult : Except Unit String) : AppState :=
  match s.currentImage with
  | none => s
  | some _ =>
    let s1 := { s with loadingState := .ANALYZING, errorMsg := none }
    let s2 :=
      match adapterResult with
      | .ok analysis => { s1 with analysisText := analysis, showAnalysis := true }
      | .error _ => { s1 with errorMsg := some "Analysis failed." }
    { s2 with loadingState := .IDLE }

/-- Embedding of `addTextOverlay` (src/App.tsx, lines 132–143). `now` models `Date.now()`;
the id is its decimal string. `y` is `10` when the store is empty at call
time and `90` otherwise; the remaining fields are the fixed defaults. -/
def addTextOverlay (now : Nat) (text : String) (s : AppState) : AppState :=
  let newText : TextOverlay :=
    { id := Nat.repr now
      text := text
      x := 50
      y := if s.texts.length = 0 then 10 else 90
      fontSize := 32
      color := "#FFFFFF"
      isUppercase := true }
  { s with texts := s.texts ++ [newText] }

/-- Embedding of `updateTextPosition` (src/App.tsx, lines 145–147): maps over the list,
overwriting `x`,`y` on every overlay whose id matches, with no clamping. -/
def updateTextPosition (id : String) (x y : Int) (s : AppState) : AppState :=
  { s with
    texts := s.texts.map (fun t => if t.id = id then { t with x := x, y := y } else t) }

/-- Embedding of `removeText` (src/App.tsx, lines 149–151): keeps exactly the overlays
whose id differs. -/
def removeText (id : String) (s : AppState) : AppState :=
  { s with texts := s.texts.filter (fun t => t.id ≠ id) }

/-- A whole sequence of add operations: each element is the `Date.now()`
clock value paired with the caption text. -/
def addAll (adds : List (Nat × String)) (s : AppState) : AppState :=
  adds.foldl (fun st p => addTextOverlay p.1 p.2 st) s

/-- A state with an image loaded and a non-blank edit prompt: the common
precondition of the edit/caption/analysis entry points, used to instantiate
hypotheses at a concrete input. -/
def editReadyState : AppState :=
  { initialState with
    currentImage := some "data:image/jpeg;base64,AAAA"
    editPrompt := "add sunglasses" }

/-- A sample overlay as `addTextOverlay` would create it first on an empty
store at clock value 1000. -/
def sampleOverlay : TextOverlay :=
  { id := "1000"
    text := "TOP TEXT"
    x := 50
    y := 10
    fontSize := 32
    color := "#FFFFFF"
    isUppercase := true }

/-- The state `editReadyState` with one overlay placed on it. -/
def withOverlayState : AppState :=
  { editReadyState with texts := [sampleOverlay] }

/- ## Claims -/

/-- C2: a successful load of a new image — `handleFileChange` with a file and
a resolved read (loadFromBytes), or `handleSelectTemplate` with a resolved
fetch (loadFromRemote) — leaves the overlay store empty and the cached
caption-suggestion list empty, for every prior state. -/
theorem C2_successful_load_clears_store (s : AppState) (f : FileInput)
    (base64 : String) (r : FetchResponse) :
    (handleFileChange s (some f) (Except.ok base64)).texts = [] ∧
    (handleFileChange s (some f) (Except.ok base64)).captions = [] ∧
    (handleSelectTemplate s (Except.ok r)).texts = [] ∧
    (handleSelectTemplate s (Except.ok r)).captions = [] :=
  ⟨rfl, rfl, rfl, rfl⟩

/-- C3: with an image loaded and a prompt that is non-empty after trimming,
a successful `handleEditImage` replaces the image content with the adapter's
result while leaving the overlay list exactly unchanged; on adapter failure
the image is untouched and the prompt text is preserved (and the overlays
are also unchanged). -/
theorem C3_edit_image_frame (s : AppState) (newImage : String)
    (himg : s.currentImage ≠ none) (hp : jsTrim s.editPrompt ≠ "") :
    (handleEditImage s (Except.ok newImage)).currentImage = some newImage ∧
    (handleEditImage s (Except.ok newImage)).texts = s.texts ∧
    (handleEditImage s (Except.error ())).currentImage = s.currentImage ∧
    (handleEditImage s (Except.error ())).editPrompt = s.editPrompt ∧
    (handleEditImage s (Except.error ())).texts = s.texts := by
  have hguard : ¬ (s.currentImage = none ∨ jsTrim s.editPrompt = "") := by
    rw [not_or]
    exact ⟨himg, hp⟩
  simp [handleEditImage, hguard]

/-- Witness for C3: the hypotheses hold at `editReadyState`, and the theorem
applies there. -/
theorem C3_edit_image_frame_witness :
    editReadyState.currentImage ≠ none ∧ jsTrim editReadyState.editPrompt ≠ "" ∧
    (handleEditImage editReadyState (Except.ok "data:image/png;base64,BBBB")).currentImage
      = some "data:image/png;base64,BBBB" ∧
    (handleEditImage editReadyState (Except.error ())).editPrompt
      = editReadyState.editPrompt :=
  ⟨by decide, by decide,
    (C3_edit_image_frame editReadyState "data:image/png;base64,BBBB"
      (by decide) (by decide)).1,
    (C3_edit_image_frame editReadyState "data:image/png;base64,BBBB"
      (by decide) (by decide)).2.2.2.1⟩

/-- A state with an image loaded and the default blank prompt: the mainline
state for caption generation and analysis (the prompt plays no role there). -/
def imageOnlyState : AppState :=
  { initialState with currentImage := some "data:image/jpeg;base64,AAAA" }

/-- C4: each of the three pipeline entry points, once its body is entered,
finishes with the loading state back at `IDLE`, whether its adapter call
resolved or rejected. The caption and analysis bodies are entered whenever
an image is loaded, for any prompt; the edit body additionally requires a
prompt that is non-blank after trimming. -/
theorem C4_operations_end_idle (s : AppState)
    (rc : Except Unit (List GeneratedCaption)) (re ra : Except Unit String)
    (himg : s.currentImage ≠ none) :
    (handleMagicCaption s rc).loadingState = LoadingState.IDLE ∧
    (handleAnalyze s ra).loadingState = LoadingState.IDLE ∧
    (jsTrim s.editPrompt ≠ "" →
      (handleEditImage s re).loadingState = LoadingState.IDLE) := by
  refine ⟨?_, ?_, ?_⟩
  · cases h : s.currentImage with
    | none => exact absurd h himg
    | some img => cases rc <;> simp [handleMagicCaption, h]
  · cases h : s.currentImage with
    | none => exact absurd h himg
    | some img => cases ra <;> simp [handleAnalyze, h]
  · intro hp
    have hguard : ¬ (s.currentImage = none ∨ jsTrim s.editPrompt = "") := by
      rw [not_or]
      exact ⟨himg, hp⟩
    cases re <;> simp [handleEditImage, hguard]

/-- Witness for C4: at `imageOnlyState` (image loaded, blank prompt) the
caption and analysis runs end at `IDLE`; at `editReadyState` (non-blank
prompt) the edit run ends at `IDLE` too. -/
theorem C4_operations_end_idle_witness :
    imageOnlyState.currentImage ≠ none ∧
    (handleMagicCaption imageOnlyState (Except.error ())).loadingState
      = LoadingState.IDLE ∧
    (handleAnalyze imageOnlyState (Except.ok "wry")).loadingState
      = LoadingState.IDLE ∧
    jsTrim editReadyState.editPrompt ≠ "" ∧
    (handleEditImage editReadyState (Except.ok "X")).loadingState
      = LoadingState.IDLE :=
  ⟨by decide,
    (C4_operations_end_idle imageOnlyState (Except.error ()) (Except.ok "X")
      (Except.ok "wry") (by decide)).1,
    (C4_operations_end_idle imageOnlyState (Except.error ()) (Except.ok "X")
      (Except.ok "wry") (by decide)).2.1,
    by decide,
    (C4_operations_end_idle editReadyState (Except.error ()) (Except.ok "X")
      (Except.ok "wry") (by decide)).2.2 (by decide)⟩

/-- C5: for every store state and every text, `addTextOverlay` appends one
overlay with `x = 50`, `fontSize = 32`, white color and `isUppercase = true`,
whose `y` is `10` exactly when the store is empty at call time and `90`
otherwise — a choice depending only on emptiness of the store at call time. -/
theorem C5_add_defaults (now : Nat) (text : String) (s : AppState) :
    ∃ t : TextOverlay,
      (addTextOverlay now text s).texts = s.texts ++ [t] ∧
      t.text = text ∧ t.x = 50 ∧ t.fontSize = 32 ∧ t.color = "#FFFFFF" ∧
      t.isUppercase = true ∧
      t.y = (if s.texts = [] then 10 else 90) := by
  refine ⟨_, rfl, rfl, rfl, rfl, rfl, rfl, ?_⟩
  by_cases h : s.texts = []
  · simp [h]
  · simp [h, List.length_eq_zero]

/-- C10: `removeText` removes every overlay whose id equals the given id
(count 0 afterwards, so duplicate ids are all deleted by one call), keeps
every non-matching overlay with its multiplicity, and preserves relative
order (the result is a sublist of the original); `updateTextPosition`
rewrites the coordinates of every overlay whose id matches and leaves every
overlay whose id differs unchanged, position by position. -/
theorem C10_remove_update_semantics (s : AppState) (id : String) (x y : Int) :
    List.Sublist (removeText id s).texts s.texts ∧
    (∀ t : TextOverlay, ((removeText id s).texts.count t) =
        if t.id = id then 0 else s.texts.count t) ∧
    (∀ i : Nat, (updateTextPosition id x y s).texts[i]? =
        (s.texts[i]?).map
          (fun t => if t.id = id then { t with x := x, y := y } else t)) := by
  refine ⟨List.filter_sublist s.texts, ?_, ?_⟩
  · intro t
    by_cases h : t.id = id
    · rw [if_pos h, List.count_eq_zero]
      intro hmem
      simp only [removeText, List.mem_filter] at hmem
      exact absurd h (by simpa using hmem.2)
    · rw [if_neg h]
      simp only [removeText]
      exact List.count_filter (by simpa using h)
  · intro i
    simp [updateTextPosition, List.getElem?_map]

/-- C6: the code does not satisfy the claim — `updateTextPosition` performs
no clamping and no rejection: called with coordinates outside `[0,100]` it
stores them verbatim, leaving the matched overlay out of the documented
percentage range. -/
theorem C6_update_position_stores_out_of_range :
    ((updateTextPosition "1000" 150 (-20) withOverlayState).texts.map
        (fun t => (t.x, t.y))) = [(150, -20)] ∧
    ((updateTextPosition "1000" 150 (-20) withOverlayState).texts.all
        (fun t => decide (0 ≤ t.x) && decide (t.x ≤ 100) &&
          decide (0 ≤ t.y) && decide (t.y ≤ 100))) = false :=
  ⟨rfl, rfl⟩

/-- C7: the claim fails on the code — a successful `handleEditImage` changes
the image content (here to a PNG data URL) while `currentMimeType` keeps its
previous value `"image/jpeg"`: content and MIME type are not updated
together on the edit path. -/
theorem C7_edit_changes_content_but_not_mime :
    (handleEditImage editReadyState
        (Except.ok "data:image/png;base64,BBBB")).currentImage
      = some "data:image/png;base64,BBBB" ∧
    (handleEditImage editReadyState
        (Except.ok "data:image/png;base64,BBBB")).currentImage
      ≠ editReadyState.currentImage ∧
    (handleEditImage editReadyState
        (Except.ok "data:image/png;base64,BBBB")).currentMimeType
      = "image/jpeg" :=
  ⟨by decide, by decide, by decide⟩

/-- C7 (amended): the two load paths update image content and MIME type
together — upload stores the data URL built from the file's type alongside
`currentMimeType := file.type`, template selection stores the reader's data
URL alongside the blob's type — but a successful edit replaces the content
alone, leaving `currentMimeType` unchanged from the previous image. -/
theorem C7_amended_content_mime_updates (s : AppState) (f : FileInput)
    (base64 : String) (r : FetchResponse) (newImage : String) :
    ((handleFileChange s (some f) (Except.ok base64)).currentImage
        = some ("data:" ++ f.type ++ ";base64," ++ base64) ∧
     (handleFileChange s (some f) (Except.ok base64)).currentMimeType = f.type) ∧
    ((handleSelectTemplate s (Except.ok r)).currentImage = some r.dataUrl ∧
     (handleSelectTemplate s (Except.ok r)).currentMimeType = r.blobType) ∧
    (s.currentImage ≠ none → jsTrim s.editPrompt ≠ "" →
      (handleEditImage s (Except.ok newImage)).currentImage = some newImage ∧
      (handleEditImage s (Except.ok newImage)).currentMimeType
        = s.currentMimeType) := by
  refine ⟨⟨rfl, rfl⟩, ⟨rfl, rfl⟩, ?_⟩
  intro himg hp
  have hguard : ¬ (s.currentImage = none ∨ jsTrim s.editPrompt = "") := by
    rw [not_or]
    exact ⟨himg, hp⟩
  simp [handleEditImage, hguard]

/-- Witness for the amended C7: the first-ever upload (from `initialState`,
no image yet, blank prompt) sets the matching MIME type, and at
`editReadyState` the edit preconditions hold and the edit conclusion follows. -/
theorem C7_amended_content_mime_updates_witness :
    (handleFileChange initialState (some { type := "image/png" })
        (Except.ok "DDDD")).currentMimeType = "image/png" ∧
    editReadyState.currentImage ≠ none ∧ jsTrim editReadyState.editPrompt ≠ "" ∧
    (handleEditImage editReadyState (Except.ok "E")).currentImage = some "E" ∧
    (handleEditImage editReadyState (Except.ok "E")).currentMimeType
      = editReadyState.currentMimeType :=
  ⟨(C7_amended_content_mime_updates initialState { type := "image/png" }
      "DDDD" { ok := true, blobType := "image/gif", dataUrl := "u" } "E").1.2,
    by decide, by decide,
    ((C7_amended_content_mime_updates editReadyState { type := "image/png" }
      "DDDD" { ok := true, blobType := "image/gif", dataUrl := "u" } "E").2.2
      (by decide) (by decide)).1,
    ((C7_amended_content_mime_updates editReadyState { type := "image/png" }
      "DDDD" { ok := true, blobType := "image/gif", dataUrl := "u" } "E").2.2
      (by decide) (by decide)).2⟩

/-- A state carrying transient results of a prior image: a stored analysis
text and a displayed error. -/
def staleAnalysisState : AppState :=
  { editReadyState with
    analysisText := "analysis of the previous image"
    errorMsg := some "Analysis failed." }

/-- C8: the claim fails on the code — a successful file load clears the
error slot but leaves the stored analysis text of the prior image in place
(it is not cleared). -/
theorem C8_load_keeps_analysis_text :
    (handleFileChange staleAnalysisState (some { type := "image/png" })
        (Except.ok "CCCC")).analysisText = "analysis of the previous image" ∧
    staleAnalysisState.analysisText ≠ "" ∧
    (handleFileChange staleAnalysisState (some { type := "image/png" })
        (Except.ok "CCCC")).errorMsg = none :=
  ⟨rfl, by decide, rfl⟩

/-- C8 (amended): every successful load (upload or template selection) and
every successful in-place replace (edit) leaves the error slot cleared
(`none`), but none of them clears the stored analysis text — it is left
exactly as it was. -/
theorem C8_amended_loads_clear_error_not_analysis (s : AppState)
    (f : FileInput) (base64 : String) (r : FetchResponse) (newImage : String) :
    ((handleFileChange s (some f) (Except.ok base64)).errorMsg = none ∧
     (handleFileChange s (some f) (Except.ok base64)).analysisText
        = s.analysisText) ∧
    ((handleSelectTemplate s (Except.ok r)).errorMsg = none ∧
     (handleSelectTemplate s (Except.ok r)).analysisText = s.analysisText) ∧
    (s.currentImage ≠ none → jsTrim s.editPrompt ≠ "" →
      (handleEditImage s (Except.ok newImage)).errorMsg = none ∧
      (handleEditImage s (Except.ok newImage)).analysisText
        = s.analysisText) := by
  refine ⟨⟨rfl, rfl⟩, ⟨rfl, rfl⟩, ?_⟩
  intro himg hp
  have hguard : ¬ (s.currentImage = none ∨ jsTrim s.editPrompt = "") := by
    rw [not_or]
    exact ⟨himg, hp⟩
  simp [handleEditImage, hguard]

/-- A state after a failed first load: no image yet, blank prompt, error
slot set. -/
def failedLoadState : AppState :=
  { initialState with errorMsg := some "Failed to load image" }

/-- Witness for the amended C8: a successful first load from
`failedLoadState` (no image yet, error slot set) clears the error slot; a
successful edit at `staleAnalysisState` (where the edit preconditions hold)
clears the error slot and keeps the stored analysis text. -/
theorem C8_amended_loads_clear_error_not_analysis_witness :
    failedLoadState.currentImage = none ∧
    failedLoadState.errorMsg ≠ none ∧
    (handleFileChange failedLoadState (some { type := "image/png" })
        (Except.ok "DDDD")).errorMsg = none ∧
    staleAnalysisState.currentImage ≠ none ∧
    jsTrim staleAnalysisState.editPrompt ≠ "" ∧
    (handleEditImage staleAnalysisState (Except.ok "E")).errorMsg = none ∧
    (handleEditImage staleAnalysisState (Except.ok "E")).analysisText
      = staleAnalysisState.analysisText :=
  ⟨rfl, by decide,
    (C8_amended_loads_clear_error_not_analysis failedLoadState
      { type := "image/png" } "DDDD"
      { ok := true, blobType := "image/gif", dataUrl := "u" } "E").1.1,
    by decide, by decide,
    ((C8_amended_loads_clear_error_not_analysis staleAnalysisState
      { type := "image/png" } "DDDD"
      { ok := true, blobType := "image/gif", dataUrl := "u" } "E").2.2
      (by decide) (by decide)).1,
    ((C8_amended_loads_clear_error_not_analysis staleAnalysisState
      { type := "image/png" } "DDDD"
      { ok := true, blobType := "image/gif", dataUrl := "u" } "E").2.2
      (by decide) (by decide)).2⟩

/-- The settled result of a `fetch` that resolved with a non-success HTTP
status (e.g. 404): `ok = false`, the body being an error page. -/
def notFoundResponse : FetchResponse :=
  { ok := false
    blobType := "text/html"
    dataUrl := "data:text/html;base64,RRRR" }

/-- C9: the claim fails on the code — `handleSelectTemplate` never consults
`Response.ok`, so a fetch that resolves with a non-success HTTP status is
processed as a successful load: the previous overlays are discarded, the
error-page body becomes the current image, and no failure is reported. -/
theorem C9_non_success_response_treated_as_success :
    notFoundResponse.ok = false ∧
    withOverlayState.texts ≠ [] ∧
    (handleSelectTemplate withOverlayState
        (Except.ok notFoundResponse)).errorMsg = none ∧
    (handleSelectTemplate withOverlayState
        (Except.ok notFoundResponse)).texts = [] ∧
    (handleSelectTemplate withOverlayState
        (Except.ok notFoundResponse)).currentImage
      = some "data:text/html;base64,RRRR" :=
  ⟨rfl, by decide, rfl, rfl, rfl⟩

/-- C9 (amended): `handleSelectTemplate` fails only when the fetch itself
rejects (network failure); in that case it sets the error message and leaves
image, MIME type, overlays and captions untouched. A resolved response is
always treated as success — its HTTP status flag is never inspected — and
its body is loaded as the image with the error slot cleared. -/
theorem C9_amended_remote_failure_semantics (s : AppState) (r : FetchResponse) :
    ((handleSelectTemplate s (Except.error ())).currentImage = s.currentImage ∧
     (handleSelectTemplate s (Except.error ())).currentMimeType
        = s.currentMimeType ∧
     (handleSelectTemplate s (Except.error ())).texts = s.texts ∧
     (handleSelectTemplate s (Except.error ())).captions = s.captions ∧
     (handleSelectTemplate s (Except.error ())).errorMsg
        = some "Failed to load template") ∧
    ((handleSelectTemplate s (Except.ok r)).currentImage = some r.dataUrl ∧
     (handleSelectTemplate s (Except.ok r)).errorMsg = none) :=
  ⟨⟨rfl, rfl, rfl, rfl, rfl⟩, rfl, rfl⟩

/- ## Overlay id generation (C1)

The id of a new overlay is `Date.now().toString()`, i.e. the decimal string
of the clock value. Two adds within the same instant therefore collide; adds
at pairwise distinct instants give pairwise distinct ids because the decimal
representation is injective, which is proved below via an explicit decimal
decoder. -/

/-- C1: the claim fails on the code — two `addTextOverlay` calls within the
same instant (equal `Date.now()` values) assign the same id `"1000"` to both
overlays, so the created ids are not pairwise distinct. -/
theorem C1_same_instant_ids_collide :
    (((addTextOverlay 1000 "SECOND" (addTextOverlay 1000 "FIRST"
        initialState)).texts.map (fun t => t.id)) = ["1000", "1000"]) ∧
    ¬ (((addTextOverlay 1000 "SECOND" (addTextOverlay 1000 "FIRST"
        initialState)).texts.map (fun t => t.id)).Nodup) :=
  ⟨by decide, by decide⟩

/-- Decimal value of a digit character: the inverse of `Nat.digitChar` on
digits below 10. -/
def digitVal (c : Char) : Nat := c.toNat - 48

/-- Decode a most-significant-first decimal digit string. -/
def decodeDigits (l : List Char) : Nat :=
  l.foldl (fun a c => a * 10 + digitVal c) 0

theorem decodeDigits_nil : decodeDigits [] = 0 := rfl

theorem digitVal_digitChar (d : Nat) (h : d < 10) :
    digitVal (Nat.digitChar d) = d := by
  interval_cases d <;> decide

theorem foldl_decodeDigits (l : List Char) (a : Nat) :
    List.foldl (fun a c => a * 10 + digitVal c) a l
      = a * 10 ^ l.length + decodeDigits l := by
  induction l generalizing a with
  | nil => simp [decodeDigits]
  | cons c t ih =>
    have hd : decodeDigits (c :: t)
        = digitVal c * 10 ^ t.length + decodeDigits t := by
      show List.foldl (fun a c => a * 10 + digitVal c) 0 (c :: t)
          = digitVal c * 10 ^ t.length + decodeDigits t
      rw [List.foldl_cons, ih]
      ring
    rw [List.foldl_cons, ih, hd, List.length_cons]
    ring

theorem decodeDigits_cons (c : Char) (t : List Char) :
    decodeDigits (c :: t) = digitVal c * 10 ^ t.length + decodeDigits t := by
  show List.foldl (fun a c => a * 10 + digitVal c) 0 (c :: t)
      = digitVal c * 10 ^ t.length + decodeDigits t
  rw [List.foldl_cons, foldl_decodeDigits]
  ring

theorem decodeDigits_toDigitsCore (fuel : Nat) :
    ∀ (n : Nat) (ds : List Char), n < 10 ^ fuel →
      decodeDigits (Nat.toDigitsCore 10 fuel n ds)
        = n * 10 ^ ds.length + decodeDigits ds := by
  induction fuel with
  | zero =>
    intro n ds hn
    simp only [pow_zero, Nat.lt_one_iff] at hn
    subst hn
    simp [Nat.toDigitsCore]
  | succ fuel ih =>
    intro n ds hn
    simp only [Nat.toDigitsCore]
    by_cases h : n / 10 = 0
    · rw [if_pos h, decodeDigits_cons,
        digitVal_digitChar _ (Nat.mod_lt n (by norm_num))]
      have hmod : n % 10 = n := Nat.mod_eq_of_lt (by omega)
      rw [hmod]
    · rw [if_neg h]
      have hfuel : n / 10 < 10 ^ fuel := by
        rw [Nat.div_lt_iff_lt_mul (by norm_num)]
        calc n < 10 ^ (fuel + 1) := hn
          _ = 10 ^ fuel * 10 := by rw [pow_succ]
      rw [ih (n / 10) (Nat.digitChar (n % 10) :: ds) hfuel,
        decodeDigits_cons,
        digitVal_digitChar _ (Nat.mod_lt n (by norm_num)),
        List.length_cons]
      have hsplit : n * 10 ^ ds.length
          = 10 * (n / 10) * 10 ^ ds.length + n % 10 * 10 ^ ds.length := by
        rw [← Nat.add_mul, Nat.div_add_mod]
      rw [hsplit]
      ring

theorem decodeDigits_repr (n : Nat) : decodeDigits (Nat.repr n).data = n := by
  have h1 : n < 10 ^ (n + 1) :=
    lt_of_lt_of_le (Nat.lt_pow_self (by norm_num) n)
      (Nat.pow_le_pow_right (by norm_num) (Nat.le_succ n))
  have h2 := decodeDigits_toDigitsCore (n + 1) n [] h1
  rw [decodeDigits_nil, List.length_nil, pow_zero, Nat.mul_one,
    Nat.add_zero] at h2
  exact h2

theorem natRepr_injective : Function.Injective Nat.repr := by
  intro m n h
  have hd : decodeDigits (Nat.repr m).data = decodeDigits (Nat.repr n).data := by
    rw [h]
  rwa [decodeDigits_repr, decodeDigits_repr] at hd

theorem addAll_texts_ids (adds : List (Nat × String)) (s : AppState) :
    ((addAll adds s).texts.map (fun t => t.id))
      = s.texts.map (fun t => t.id) ++ adds.map (fun p => Nat.repr p.1) := by
  induction adds generalizing s with
  | nil => simp [addAll]
  | cons p rest ih =>
    have h1 : addAll (p :: rest) s = addAll rest (addTextOverlay p.1 p.2 s) :=
      rfl
    rw [h1, ih]
    simp [addTextOverlay]

/-- C1 (amended): overlay ids are the decimal string of the creation clock
value, so the ids of a whole sequence of adds starting from an empty store
are pairwise distinct whenever the `Date.now()` clock values of the adds are
pairwise distinct; adds within the same instant collide
(`C1_same_instant_ids_collide`). -/
theorem C1_distinct_instants_distinct_ids (adds : List (Nat × String))
    (s : AppState) (hempty : s.texts = [])
    (hclocks : (adds.map Prod.fst).Nodup) :
    ((addAll adds s).texts.map (fun t => t.id)).Nodup := by
  rw [addAll_texts_ids, hempty]
  simp only [List.map_nil, List.nil_append]
  have h2 : ((adds.map Prod.fst).map Nat.repr).Nodup :=
    hclocks.map natRepr_injective
  simpa [List.map_map, Function.comp_def] using h2

/-- Witness for the amended C1: two adds at distinct instants 1000 and 1001
from the empty initial store yield distinct ids. -/
theorem C1_distinct_instants_distinct_ids_witness :
    initialState.texts = [] ∧
    (([(1000, "TOP"), (1001, "BOTTOM")].map Prod.fst).Nodup) ∧
    ((addAll [(1000, "TOP"), (1001, "BOTTOM")] initialState).texts.map
        (fun t => t.id)).Nodup :=
  ⟨rfl, by decide,
    C1_distinct_instants_distinct_ids [(1000, "TOP"), (1001, "BOTTOM")]
      initialState rfl (by decide)⟩

end MemeGenius
